import Mathlib

/-
Shallow embedding of src/bot.py (PokemonCenterMonitor).

The program is a single-threaded polling loop.  External effects (HTTP
GET/POST, HTML parsing, Twilio SMS) are modelled as inputs to pure
functions: each loop iteration receives the outcome the environment would
produce for its network calls, and the embedded functions compute exactly
the branching the Python code performs on those outcomes.
-/

/-- Configuration constant PRODUCT_URL from src/bot.py. -/
def PRODUCT_URL : String :=
  "https://www.pokemoncenter.com/product/10-10191-109/pokemon-tcg-mega-evolution-phantasmal-flames-booster-bundle-6-packs"

/-- Configuration constant PRODUCT_NAME from src/bot.py. -/
def PRODUCT_NAME : String :=
  "Pokemon TCG Mega Evolution Phantasmal Flames Booster Bundle"

/-- Configuration constant CHECK_INTERVAL (seconds) from src/bot.py. -/
def CHECK_INTERVAL : Nat := 90

/-- Configuration constant CART_URL from src/bot.py. -/
def CART_URL : String :=
  "https://www.pokemoncenter.com/tpci-ecommweb-api/cart/add-product/qgqvhkjsheyc2obqheydm="

/-- Substring containment on character lists: does the second list contain
the first as a contiguous sublist?  Used to embed the Python `in` operator
on strings. -/
def containsSeq (pat : List Char) : List Char → Bool
  | [] => pat.isEmpty
  | c :: rest => List.isPrefixOf pat (c :: rest) || containsSeq pat rest

/-- String substring containment, embedding Python `pat in s`. -/
def strContainsSub (s pat : String) : Bool :=
  containsSeq pat.data s.data

/-- ASCII lower-casing of a string, embedding the Python .lower() calls (the
markers compared against are all ASCII). -/
def lowerStr (s : String) : String :=
  ⟨s.data.map Char.toLower⟩

/-- Tri-state stock result.  The Python check_stock returns True / False /
None; we name the three outcomes InStock / OutOfStock / Unknown as the spec
does. -/
inductive StockResult where
  | InStock
  | OutOfStock
  | Unknown
deriving Repr, DecidableEq, BEq

/-- A parsed button element of the product page: its class attribute (absent
buttons carry none, matching the BeautifulSoup attribute lambda receiving a
falsy value), whether it has a disabled attribute, and its stripped text
content. -/
structure Button where
  classAttr : Option String
  disabled : Bool
  text : String
deriving Repr, DecidableEq

/-- An HTTP response to the product-page GET: status code and the button
elements the HTML parser would extract from the body, in document order. -/
structure HttpResponse where
  status : Nat
  buttons : List Button
deriving Repr, DecidableEq

/-- Outcome of the product-page fetch as seen by check_stock: a response, a
requests timeout exception, or any other exception raised during fetch or
parse. -/
inductive FetchResult where
  | success (resp : HttpResponse)
  | timeout
  | error (msg : String)
deriving Repr, DecidableEq

/-- What one call to check_stock produces: the tri-state result, the number
of seconds of time.sleep incurred inside the call (5 on HTTP 403, else 0),
and whether the response body was handed to the HTML parser. -/
structure CheckOutcome where
  result : StockResult
  pauseSecs : Nat
  parsedBody : Bool
deriving Repr, DecidableEq

/-- The BeautifulSoup filter in check_stock: a button matches when its class
attribute is present and contains the marker substring. -/
def cartButtonMatch (b : Button) : Bool :=
  match b.classAttr with
  | none => false
  | some c => strContainsSub c "add-to-cart-button"

/-- soup.find on buttons: the first button whose class attribute contains
the add-to-cart-button marker, if any. -/
def findCartButton (bs : List Button) : Option Button :=
  bs.find? cartButtonMatch

/-- Embedding of PokemonCenterMonitor.check_stock.  Branches exactly as the
Python code: 403 sleeps 5 seconds and yields Unknown; any other non-200
yields Unknown; on 200 the page is parsed and the add-to-cart button
inspected; a timeout or any other exception is caught and yields Unknown. -/
def check_stock (f : FetchResult) : CheckOutcome :=
  match f with
  | .timeout => ⟨.Unknown, 0, false⟩
  | .error _ => ⟨.Unknown, 0, false⟩
  | .success resp =>
    if resp.status = 403 then ⟨.Unknown, 5, false⟩
    else if resp.status ≠ 200 then ⟨.Unknown, 0, false⟩
    else
      match findCartButton resp.buttons with
      | none => ⟨.OutOfStock, 0, true⟩
      | some btn =>
        let text := lowerStr btn.text
        let is_disabled := btn.disabled || strContainsSub text "unavailable"
        if is_disabled then ⟨.OutOfStock, 0, true⟩ else ⟨.InStock, 0, true⟩

/-- Outcome of one HTTP request made by add_to_cart: a status code with a
response body, or a raised exception. -/
inductive ReqResult where
  | ok (status : Nat) (body : String)
  | exn (msg : String)
deriving Repr, DecidableEq

/-- Whether a request completed with exactly status 200. -/
def isOk200 : ReqResult → Bool
  | .ok st _ => st == 200
  | .exn _ => false

/-- What one call to add_to_cart reports: whether it returned True, and
whether the cart POST was actually issued (the POST is skipped when the
page refresh fails). -/
structure CartOutcome where
  success : Bool
  postIssued : Bool
deriving Repr, DecidableEq

/-- Embedding of PokemonCenterMonitor.add_to_cart.  The product page is
re-fetched first; any non-200 refresh (or exception) returns False without
issuing the POST.  Otherwise the cart POST is issued once; it returns True
exactly when the POST status is 200, and any exception returns False.  The
response body is never consulted. -/
def add_to_cart (refresh post : ReqResult) : CartOutcome :=
  match refresh with
  | .exn _ => ⟨false, false⟩
  | .ok st _ =>
    if st ≠ 200 then ⟨false, false⟩
    else
      match post with
      | .exn _ => ⟨false, true⟩
      | .ok st2 _ => ⟨st2 == 200, true⟩

/-- Outcome of the Twilio messages.create call, as seen by send_sms: a
provider message identifier, or a raised exception. -/
inductive SmsSend where
  | sent (sid : String)
  | exn (msg : String)
deriving Repr, DecidableEq

/-- What one call to send_sms reports: its boolean return value and whether
a Twilio send was actually attempted. -/
structure SmsOutcome where
  success : Bool
  attempted : Bool
deriving Repr, DecidableEq

/-- Embedding of PokemonCenterMonitor.send_sms.  If the Twilio client was
never initialised the call returns False without attempting a send; an
exception during the send is caught and returns False; otherwise True. -/
def send_sms (clientInitialized : Bool) (outcome : SmsSend) : SmsOutcome :=
  if clientInitialized then
    match outcome with
    | .sent _ => ⟨true, true⟩
    | .exn _ => ⟨false, true⟩
  else ⟨false, false⟩

/-- The fixed notification message built by PokemonCenterMonitor.notify. -/
def notifyMessage : String :=
  "IN STOCK: " ++ PRODUCT_NAME ++ "\n" ++ PRODUCT_URL

/-- Mutable per-process state of the monitor used by run: the item_added
flag and the check counter. -/
structure MonitorState where
  item_added : Bool
  check_count : Nat
deriving Repr, DecidableEq

/-- The state the monitor starts in: item_added is False, no checks yet. -/
def initState : MonitorState :=
  { item_added := false, check_count := 0 }

/-- Environment outcomes for one loop iteration: what the stock-check fetch
returns, what the two requests inside add_to_cart would return if invoked,
and what the Twilio send would return if invoked. -/
structure IterInput where
  fetch : FetchResult
  cartRefresh : ReqResult
  cartPost : ReqResult
  smsSend : SmsSend
deriving Repr, DecidableEq

/-- Observable events of one loop iteration: the check result, whether a
cart-add was attempted and whether it succeeded, the message handed to
send_sms by notify (none when notify was not invoked), whether a Twilio
send was attempted, the pause incurred inside the check, the in-stock
cooldown sleep, and the base interval sleep. -/
structure IterEvents where
  result : StockResult
  cartAttempted : Bool
  cartSucceeded : Bool
  notifyMsg : Option String
  smsAttempted : Bool
  pauseSecs : Nat
  cooldownSecs : Nat
  sleepSecs : Nat
deriving Repr, DecidableEq

/-- Embedding of one iteration of the while-True loop in
PokemonCenterMonitor.run: increment the counter, check stock; on InStock,
attempt add_to_cart only when item_added is still False (setting the flag
only on a True return), then notify and sleep 300 seconds; every iteration
ends with the base CHECK_INTERVAL sleep. -/
def step (twilioOk : Bool) (s : MonitorState) (inp : IterInput) :
    MonitorState × IterEvents :=
  let chk := check_stock inp.fetch
  let isIn := chk.result == StockResult.InStock
  let attempted := isIn && !s.item_added
  let cartOk := attempted && (add_to_cart inp.cartRefresh inp.cartPost).success
  let sms := if isIn then send_sms twilioOk inp.smsSend else ⟨false, false⟩
  ({ item_added := s.item_added || cartOk, check_count := s.check_count + 1 },
   { result := chk.result
     cartAttempted := attempted
     cartSucceeded := cartOk
     notifyMsg := if isIn then some notifyMessage else none
     smsAttempted := sms.attempted
     pauseSecs := chk.pauseSecs
     cooldownSecs := if isIn then 300 else 0
     sleepSecs := CHECK_INTERVAL })

/-- Run the monitor loop over a finite list of iteration inputs, collecting
the per-iteration events. -/
def runSteps (twilioOk : Bool) : MonitorState → List IterInput →
    MonitorState × List IterEvents
  | s, [] => (s, [])
  | s, i :: is =>
    let p := step twilioOk s i
    let q := runSteps twilioOk p.1 is
    (q.1, p.2 :: q.2)

/-- Trace predicate: after any iteration whose cart-add succeeded, no later
iteration attempts a cart-add. -/
def noAttemptAfterSuccess : List IterEvents → Bool
  | [] => true
  | e :: es =>
    (if e.cartSucceeded then es.all (fun x => !x.cartAttempted) else true)
      && noAttemptAfterSuccess es

/-- Number of iterations in a trace that attempted a cart-add. -/
def cartAttemptCount (es : List IterEvents) : Nat :=
  (es.filter (fun e => e.cartAttempted)).length

/-- A page whose only button is an enabled add-to-cart button. -/
def inStockPage : List Button :=
  [{ classAttr := some "add-to-cart-button", disabled := false, text := "Add to Cart" }]

/-- A 200 response carrying the enabled add-to-cart button. -/
def inStockFetch : FetchResult :=
  .success { status := 200, buttons := inStockPage }

/-- Iteration input where the check finds stock but the cart POST comes back
with HTTP 500, so the cart-add attempt fails. -/
def failCartInput : IterInput :=
  { fetch := inStockFetch
    cartRefresh := .ok 200 ""
    cartPost := .ok 500 "error"
    smsSend := .exn "no creds" }

/-
Helper lemmas about step and runSteps, shared by the loop-level theorems.
-/

/-- How step decides to attempt a cart-add: only on an InStock result while
the item_added flag is still False. -/
theorem step_cartAttempted_eq (t : Bool) (s : MonitorState) (i : IterInput) :
    (step t s i).2.cartAttempted
      = (((check_stock i.fetch).result == StockResult.InStock) && !s.item_added) :=
  rfl

/-- How step updates the item_added flag: it stays set, and becomes set
exactly when the cart-add of this iteration succeeded. -/
theorem step_item_added_eq (t : Bool) (s : MonitorState) (i : IterInput) :
    (step t s i).1.item_added = (s.item_added || (step t s i).2.cartSucceeded) :=
  rfl

/-- A cart-add succeeds in an iteration only if it was attempted there. -/
theorem step_cartSucceeded_eq (t : Bool) (s : MonitorState) (i : IterInput) :
    (step t s i).2.cartSucceeded
      = ((step t s i).2.cartAttempted && (add_to_cart i.cartRefresh i.cartPost).success) :=
  rfl

/-- Once the item_added flag is set, an iteration keeps it set and attempts
no cart-add. -/
theorem step_keeps_added (t : Bool) (s : MonitorState) (i : IterInput)
    (h : s.item_added = true) :
    (step t s i).1.item_added = true ∧ (step t s i).2.cartAttempted = false := by
  constructor
  · rw [step_item_added_eq, h, Bool.true_or]
  · rw [step_cartAttempted_eq, h]
    simp

/-- An iteration whose cart-add succeeded leaves the item_added flag set. -/
theorem step_success_added (t : Bool) (s : MonitorState) (i : IterInput)
    (h : (step t s i).2.cartSucceeded = true) :
    (step t s i).1.item_added = true := by
  rw [step_item_added_eq, h, Bool.or_true]

/-- Once the item_added flag is set, no later iteration of the run attempts
a cart-add, and the flag stays set. -/
theorem runSteps_keeps_added (t : Bool) (ins : List IterInput) :
    ∀ s : MonitorState, s.item_added = true →
      ((runSteps t s ins).2.all fun e => !e.cartAttempted) = true
        ∧ (runSteps t s ins).1.item_added = true := by
  induction ins with
  | nil => intro s h; exact ⟨rfl, h⟩
  | cons i is ih =>
    intro s h
    have hk := step_keeps_added t s i h
    have hrest := ih (step t s i).1 hk.1
    refine ⟨?_, ?_⟩
    · show ((!(step t s i).2.cartAttempted)
        && ((runSteps t (step t s i).1 is).2.all fun e => !e.cartAttempted)) = true
      rw [hk.2, hrest.1]
      rfl
    · show (runSteps t (step t s i).1 is).1.item_added = true
      exact hrest.2

/-- From any starting state, a run never attempts a cart-add after an
iteration whose cart-add succeeded. -/
theorem runSteps_noAttemptAfterSuccess (t : Bool) (ins : List IterInput) :
    ∀ s : MonitorState, noAttemptAfterSuccess (runSteps t s ins).2 = true := by
  induction ins with
  | nil => intro s; rfl
  | cons i is ih =>
    intro s
    show ((if (step t s i).2.cartSucceeded
            then (runSteps t (step t s i).1 is).2.all fun x => !x.cartAttempted
            else true)
          && noAttemptAfterSuccess (runSteps t (step t s i).1 is).2) = true
    rw [ih (step t s i).1]
    cases h : (step t s i).2.cartSucceeded with
    | false => rfl
    | true =>
      have := (runSteps_keeps_added t is (step t s i).1
        (step_success_added t s i h)).1
      rw [this]
      rfl

/-- Boolean fact used for the succeeded-implies-attempted conjunct. -/
theorem and_not_self_aux (a b : Bool) : ((a && b) && !a) = false := by
  cases a <;> cases b <;> rfl

/-
Claim theorems.
-/

/-- C2: every 200 response in which the add-to-cart button is found, carries
no disabled attribute, and whose lowered text does not contain the
unavailable marker makes check_stock return InStock. -/
theorem C2_in_stock_on_enabled_button (resp : HttpResponse) (btn : Button)
    (h200 : resp.status = 200)
    (hfind : findCartButton resp.buttons = some btn)
    (hdis : btn.disabled = false)
    (htext : strContainsSub (lowerStr btn.text) "unavailable" = false) :
    (check_stock (FetchResult.success resp)).result = StockResult.InStock := by
  simp [check_stock, h200, hfind, hdis, htext]

/-- C2 witness: a concrete 200 response with an enabled add-to-cart button
is reported InStock. -/
theorem C2_witness :
    (check_stock (FetchResult.success ⟨200, inStockPage⟩)).result
      = StockResult.InStock :=
  C2_in_stock_on_enabled_button ⟨200, inStockPage⟩
    ⟨some "add-to-cart-button", false, "Add to Cart"⟩
    rfl (by decide) rfl (by decide)

/-- C3: every 200 response in which the add-to-cart button is absent, or is
found with a disabled attribute, or whose lowered text contains the
unavailable marker, makes check_stock return OutOfStock. -/
theorem C3_out_of_stock_cases (resp : HttpResponse)
    (h200 : resp.status = 200)
    (hcase : findCartButton resp.buttons = none
      ∨ ∃ btn, findCartButton resp.buttons = some btn
          ∧ (btn.disabled = true
            ∨ strContainsSub (lowerStr btn.text) "unavailable" = true)) :
    (check_stock (FetchResult.success resp)).result = StockResult.OutOfStock := by
  rcases hcase with h | ⟨btn, hf, hd | ht⟩
  · simp [check_stock, h200, h]
  · simp [check_stock, h200, hf, hd]
  · simp [check_stock, h200, hf, ht]

/-- C3 witness: a concrete 200 response with no add-to-cart button at all is
reported OutOfStock. -/
theorem C3_witness :
    (check_stock (FetchResult.success ⟨200, []⟩)).result
      = StockResult.OutOfStock :=
  C3_out_of_stock_cases ⟨200, []⟩ rfl (Or.inl (by decide))

/-- C4: every 403 response makes check_stock return Unknown after a fixed
5-second pause, without handing the body to the parser. -/
theorem C4_forbidden_unknown :
    ∀ page : List Button,
      check_stock (FetchResult.success ⟨403, page⟩)
        = ⟨StockResult.Unknown, 5, false⟩ :=
  fun _ => rfl

/-- C5: every response whose status is neither 200 nor 403 makes check_stock
return Unknown without incurring a pause and without handing the body to the
parser. -/
theorem C5_other_status_unknown (resp : HttpResponse)
    (h200 : resp.status ≠ 200) (h403 : resp.status ≠ 403) :
    check_stock (FetchResult.success resp) = ⟨StockResult.Unknown, 0, false⟩ := by
  simp [check_stock, h200, h403]

/-- C5 witness: a concrete 500 response is reported Unknown with no pause
and no body parse. -/
theorem C5_witness :
    check_stock (FetchResult.success ⟨500, inStockPage⟩)
      = ⟨StockResult.Unknown, 0, false⟩ :=
  C5_other_status_unknown ⟨500, inStockPage⟩ (by decide) (by decide)

/-- C6: a timeout and any other exception during fetch or parse are caught
and yield Unknown, and an iteration fed such an outcome still increments the
check counter and sleeps the base interval, so the loop continues. -/
theorem C6_errors_degrade_to_unknown :
    (check_stock FetchResult.timeout = ⟨StockResult.Unknown, 0, false⟩)
    ∧ (∀ m : String,
        check_stock (FetchResult.error m) = ⟨StockResult.Unknown, 0, false⟩)
    ∧ (∀ (t : Bool) (s : MonitorState) (r p : ReqResult) (a : SmsSend),
        (step t s ⟨FetchResult.timeout, r, p, a⟩).1.check_count = s.check_count + 1
        ∧ (step t s ⟨FetchResult.timeout, r, p, a⟩).2.sleepSecs = CHECK_INTERVAL) :=
  ⟨rfl, fun _ => rfl, fun _ _ _ _ _ => ⟨rfl, rfl⟩⟩

/-- C7: every iteration whose check result is InStock invokes notify, which
hands send_sms the fixed message containing the product name and the product
URL; this holds for every state and input, in particular when the cart-add
failed or was skipped. -/
theorem C7_notify_on_in_stock (t : Bool) (s : MonitorState) (i : IterInput)
    (h : (step t s i).2.result = StockResult.InStock) :
    (step t s i).2.notifyMsg = some notifyMessage
    ∧ strContainsSub notifyMessage PRODUCT_NAME = true
    ∧ strContainsSub notifyMessage PRODUCT_URL = true := by
  refine ⟨?_, by decide, by decide⟩
  have hres : (check_stock i.fetch).result = StockResult.InStock := h
  show (if (check_stock i.fetch).result == StockResult.InStock
          then some notifyMessage else none) = some notifyMessage
  rw [hres]
  rfl

/-- C7 witness: on a concrete in-stock iteration whose cart-add fails, the
notification is still handed the full message. -/
theorem C7_witness :
    (step false initState failCartInput).2.notifyMsg = some notifyMessage
    ∧ strContainsSub notifyMessage PRODUCT_NAME = true
    ∧ strContainsSub notifyMessage PRODUCT_URL = true :=
  C7_notify_on_in_stock false initState failCartInput (by decide)

/-- C8: add_to_cart reports success exactly when both the page refresh and
the cart POST complete with status 200, and the POST is issued exactly when
the refresh completed with status 200; bodies and exception messages never
influence the outcome, and at most one POST is issued per call by
construction. -/
theorem C8_cart_success_iff_200 :
    ∀ refresh post : ReqResult,
      (add_to_cart refresh post).success = (isOk200 refresh && isOk200 post)
      ∧ (add_to_cart refresh post).postIssued = isOk200 refresh := by
  intro refresh post
  cases refresh with
  | exn m => exact ⟨rfl, rfl⟩
  | ok st b =>
    by_cases h : st = 200
    · subst h
      cases post with
      | exn m => exact ⟨by simp [add_to_cart, isOk200], by simp [add_to_cart, isOk200]⟩
      | ok st2 b2 => exact ⟨by simp [add_to_cart, isOk200], by simp [add_to_cart, isOk200]⟩
    · have hb : (st == 200) = false := by simp [h]
      constructor
      · simp [add_to_cart, isOk200, h, hb]
      · simp [add_to_cart, isOk200, h, hb]

/-- C9: send_sms returns failure without attempting a send when the Twilio
client was never initialised, returns failure on an exception during an
attempted send, and the iteration state and every sleep duration are
unchanged by whatever the SMS send would return. -/
theorem C9_sms_failure_harmless :
    (∀ o : SmsSend, send_sms false o = ⟨false, false⟩)
    ∧ (∀ m : String, send_sms true (SmsSend.exn m) = ⟨false, true⟩)
    ∧ (∀ (t : Bool) (s : MonitorState) (i : IterInput) (a b : SmsSend),
        (step t s { i with smsSend := a }).1 = (step t s { i with smsSend := b }).1
        ∧ (step t s { i with smsSend := a }).2.sleepSecs
            = (step t s { i with smsSend := b }).2.sleepSecs
        ∧ (step t s { i with smsSend := a }).2.cooldownSecs
            = (step t s { i with smsSend := b }).2.cooldownSecs
        ∧ (step t s { i with smsSend := a }).2.pauseSecs
            = (step t s { i with smsSend := b }).2.pauseSecs) :=
  ⟨fun _ => rfl, fun _ => rfl, fun _ _ _ _ _ => ⟨rfl, rfl, rfl, rfl⟩⟩

/-- C10: the item_added flag starts False; each iteration leaves it equal to
its old value or-ed with the cart-add success of this iteration, so it is set
only by a successful attempt and a failed attempt leaves it False; a
cart-add succeeds only in an iteration that attempted one; an iteration
attempts a cart-add exactly when the check returned InStock and the flag is
still False, so once the flag is True no further cart-add is issued; and the
flag is monotone over every run. -/
theorem C10_item_added_monotone :
    initState.item_added = false
    ∧ (∀ (t : Bool) (s : MonitorState) (i : IterInput),
        (step t s i).1.item_added = (s.item_added || (step t s i).2.cartSucceeded))
    ∧ (∀ (t : Bool) (s : MonitorState) (i : IterInput),
        (step t s i).2.cartSucceeded
          = ((step t s i).2.cartAttempted && (add_to_cart i.cartRefresh i.cartPost).success))
    ∧ (∀ (t : Bool) (s : MonitorState) (i : IterInput),
        (step t s i).2.cartAttempted
          = (((check_stock i.fetch).result == StockResult.InStock) && !s.item_added))
    ∧ (∀ (t : Bool) (s : MonitorState) (ins : List IterInput),
        (!s.item_added || (runSteps t s ins).1.item_added) = true) := by
  refine ⟨rfl, fun t s i => rfl, fun t s i => rfl, fun t s i => rfl, fun t s ins => ?_⟩
  cases h : s.item_added with
  | false => rfl
  | true =>
    rw [(runSteps_keeps_added t ins s h).2]
    rfl

/-- C1 counterexample: from the initial state, two consecutive in-stock
iterations whose cart POST returns HTTP 500 both attempt a cart-add: the
first attempt fails and a second attempt occurs anyway, so cart-add is not
gated to at most one attempt per process lifetime. -/
theorem C1_counterexample :
    cartAttemptCount (runSteps false initState [failCartInput, failCartInput]).2 = 2
    ∧ ((runSteps false initState [failCartInput, failCartInput]).2.map
        (fun e => e.cartSucceeded)) = [false, false]
    ∧ ((runSteps false initState [failCartInput, failCartInput]).2.map
        (fun e => e.result)) = [StockResult.InStock, StockResult.InStock] :=
  ⟨by decide, by decide, by decide⟩

/-- C1 amended: in every run from the initial state, no iteration after a
successful cart-add attempts another cart-add, and a succeeding iteration is
an attempting one — so at most one cart-add attempt succeeds per process
lifetime; a failed attempt, however, leaves the gate open and is retried on
the next InStock detection. -/
theorem C1_at_most_one_successful_cart_add :
    ∀ (t : Bool) (ins : List IterInput),
      noAttemptAfterSuccess (runSteps t initState ins).2 = true
      ∧ ∀ (s : MonitorState) (i : IterInput),
          ((step t s i).2.cartSucceeded && !(step t s i).2.cartAttempted) = false := by
  intro t ins
  refine ⟨runSteps_noAttemptAfterSuccess t ins initState, fun s i => ?_⟩
  rw [step_cartSucceeded_eq]
  exact and_not_self_aux _ _
